import Mathlib

/-!
Shallow embedding of the GENGE API `POST /verifyOwnership` handler
(`src/index.js`) and proofs about its verification decision logic.

The handler is modelled as a pure function of
  - the request body (`Req`, whose fields are JavaScript values),
  - the replay-guard state (`usedTxs`, a list of JavaScript values),
  - a `World` recording the outcome of every external collaborator call
    (facilitator HTTP call, `balanceOf`, `getTransaction`,
    `getTransactionReceipt`, `ownerOf`), where `Except.error ()` models a
    thrown/failed call, and
  - the environment configuration (`Config`).

It returns the HTTP response, the updated replay set, and the ordered list
of collaborators actually invoked.
-/

namespace Genge

/-- JavaScript values as far as the handler inspects them:
`undefined`, `null`, strings, (integer) numbers and booleans. -/
inductive JsVal where
  | undef
  | null
  | str (s : String)
  | num (n : Int)
  | bool (b : Bool)
deriving DecidableEq, Repr

/-- JavaScript truthiness, used by `!wallet`, `!txHash`, `receipt.status && …`. -/
def truthy : JsVal → Bool
  | .undef => false
  | .null => false
  | .str s => s != ""
  | .num n => n != 0
  | .bool b => b

/-- Models `v.toString()`: `none` models the `TypeError` thrown on `null`/`undefined`;
that throw is always caught by an enclosing try/catch in the handler, where it
makes the enclosing check fail. -/
def jsToString : JsVal → Option String
  | .undef => none
  | .null => none
  | .str s => some s
  | .num n => some (toString n)
  | .bool b => some (if b then "true" else "false")

/-- Lower-casing a string, as `String.toLowerCase` does in JavaScript for the
ASCII addresses handled here; defined by a structural map over the character
list so that concrete instances evaluate. -/
def jsLower (s : String) : String :=
  ⟨s.data.map Char.toLower⟩

/-- Models `v.toLowerCase()`: only strings have the method; `none` models the throw. -/
def jsToLower : JsVal → Option String
  | .str s => some (jsLower s)
  | _ => none

/-- The parsed request body `{ wallet, tokenId, txHash }`. -/
structure Req where
  wallet : JsVal
  tokenId : JsVal
  txHash : JsVal
deriving DecidableEq, Repr

/-- The decoded content of one receipt log entry, after the `parseLog`
attempts with the ERC-721 and ERC-1155 interfaces: a log decodes as at most
one of the three events (dispatch is by topic hash); `other` stands for a log
that matches neither interface. -/
inductive LogEvent where
  | transfer (src dst : String) (tokenId : Nat)
  | transferSingle (op src dst : String) (id value : Nat)
  | transferBatch (op src dst : String) (ids values : List Nat)
  | other
deriving DecidableEq, Repr

/-- A raw receipt log entry: its emitting address and its decoded content. -/
structure Log where
  address : Option String
  event : LogEvent
deriving DecidableEq, Repr

/-- Fields of the `provider.getTransaction` result the handler reads. `txFrom` and
`txTo` feed only `console.warn` diagnostics, except that evaluating the
`tx.from` warning condition calls `wallet.toLowerCase()`. -/
structure Tx where
  txFrom : Option String
  txTo : Option String
deriving DecidableEq, Repr

/-- Fields of the `provider.getTransactionReceipt` result the handler reads. -/
structure Receipt where
  status : JsVal
  logs : List Log
deriving DecidableEq, Repr

/-- Environment configuration read by the handler. -/
structure Config where
  contractAddress : Option String
  payTo : Option String
deriving DecidableEq, Repr

/-- Outcomes of the five external collaborator calls, fixed per request.
`Except.error ()` is a call that throws (network failure, contract without the
accessor, RPC error, nonexistent token, …). For the facilitator, `Except.ok v`
carries the `success` field of the parsed JSON response. -/
structure World where
  facilitator : Except Unit JsVal
  balance : Except Unit Nat
  txLookup : Except Unit (Option Tx)
  receiptLookup : Except Unit (Option Receipt)
  ownerLookup : Except Unit String
deriving Repr

/-- The collaborators the handler can invoke, in invocation order. -/
inductive Collab where
  | facilitator
  | balanceRead
  | txRead
  | receiptRead
  | ownerRead
deriving DecidableEq, Repr

/-- The handler's possible responses. `badRequest` is HTTP 400,
`paymentRequired` is HTTP 402 (carrying the three diagnostic flags), and
`ok` is HTTP 200 (the resource-description body echoing wallet and tokenId). -/
inductive Resp where
  | badRequest (msg : String)
  | paymentRequired (paymentOk ownsNFT transferVerified : Bool)
  | ok (wallet tokenId : JsVal)
deriving DecidableEq, Repr

/-- HTTP status code of a response. -/
def statusOf : Resp → Nat
  | .badRequest _ => 400
  | .paymentRequired _ _ _ => 402
  | .ok _ _ => 200

/-- The field validation `if (!wallet || tokenId === undefined || !txHash)`. -/
def missingFields (r : Req) : Bool :=
  !(truthy r.wallet) || r.tokenId == JsVal.undef || !(truthy r.txHash)

/-- The payment check `x402CheckPayment`: one facilitator HTTP call; verified only when the
parsed response satisfies `data.success === true`; any throw returns `false`. -/
def x402CheckPayment (w : World) : Bool :=
  match w.facilitator with
  | .error _ => false
  | .ok v => v == JsVal.bool true

/-- The ownership flag `ownsNFT`: `balance && balance.toString() !== "0"`, with any `balanceOf`
throw caught and treated as not owned. -/
def ownsNFTOf (w : World) : Bool :=
  match w.balance with
  | .error _ => false
  | .ok b => b != 0

/-- Models `process.env.CONTRACT_ADDRESS ? process.env.CONTRACT_ADDRESS.toLowerCase() : null`. -/
def contractLower (cfg : Config) : Option String :=
  match cfg.contractAddress with
  | none => none
  | some s => if s == "" then none else some (jsLower s)

/-- Does one decoded log event match the requested transfer?  `wLower` is
`wallet.toLowerCase()` and `tStr` is `tokenId.toString()`, each `none` when
the call would throw (the throw is caught per log and the log is skipped).

The ERC-721 branch reads `parsed.args[0..2]`, matching the ethers layout of
`Transfer(from, to, tokenId)`, so it compares the real tokenId and
destination. The ERC-1155 branches are different: the source reads
`parsed1155.args[3]`, `args[4]` and `args[5]` as `to`, `id` and `value`,
but ethers decodes `TransferSingle(operator, from, to, id, value)` into
`args[0..4]`. So for TransferSingle the compared "id" is really the value,
a coincidental match then calls `.toLowerCase()` on the bigint id in
`args[3]` and throws, and `args[5]` is undefined and fails the `value &&`
guard; for TransferBatch, `parsed1155.args[5].map(...)` throws at once on
undefined. Every such throw is swallowed by the per-log catch and the log is
skipped: neither ERC-1155 event can ever produce a match. -/
def matchEvent (wLower tStr : Option String) : LogEvent → Bool
  | .transfer _ dst tid =>
      tStr == some (toString tid) && wLower == some (jsLower dst)
  | .transferSingle _ _ _ _ _ => false
  | .transferBatch _ _ _ _ _ => false
  | .other => false

/-- One iteration of the receipt-log loop: skip logs with a falsy address,
skip everything when the contract address is unconfigured, skip logs from
other addresses, then try the event decodes. -/
def logMatch (cLower wLower tStr : Option String) (log : Log) : Bool :=
  match log.address with
  | none => false
  | some a =>
    if a == "" then false
    else
      match cLower with
      | none => false
      | some c =>
        if jsLower a != c then false
        else matchEvent wLower tStr log.event

/-- The receipt-log scan: first-match with break; since each iteration is
effect-free, the loop's result is whether any log matches. -/
def scanLogs (cLower wLower tStr : Option String) (logs : List Log) : Bool :=
  logs.any (logMatch cLower wLower tStr)

/-- Models the warning condition `if (tx.from && tx.from.toLowerCase() !== wallet.toLowerCase())`:
evaluating this warning condition throws when `tx.from` is truthy and
`wallet` has no `toLowerCase` method; the throw is caught by the outer
try/catch of the transfer-check block, ending it with `transferVerified`
still false. -/
def txFromThrows (tx : Tx) (wallet : JsVal) : Bool :=
  match tx.txFrom with
  | none => false
  | some f => f != "" && (jsToLower wallet).isNone

/-- The guard `receipt.status && receipt.status !== 1` that logs
"Transaction failed" and skips the scan. Note a status of `0` is falsy and
does NOT trigger it. -/
def statusGuardBlocks (status : JsVal) : Bool :=
  truthy status && !(status == JsVal.num 1)

/-- The `ownerOf` fallback: `owner && owner.toLowerCase() === wallet.toLowerCase()`,
with any throw (from `ownerOf` or from `wallet.toLowerCase()`) caught and
treated as not verified. -/
def ownerFallback (w : World) (wallet : JsVal) : Bool :=
  match w.ownerLookup with
  | .error _ => false
  | .ok owner =>
    if owner == "" then false
    else
      match jsToLower wallet with
      | none => false
      | some wl => jsLower owner == wl

/-- Step 3 of the handler: the transaction/receipt/log/ownerOf chain.
Returns `transferVerified` and the chain collaborators invoked. Every
failure path is swallowed (`transferVerified` stays false). -/
def transferCheck (cfg : Config) (w : World) (r : Req) : Bool × List Collab :=
  match w.txLookup with
  | .error _ => (false, [Collab.txRead])
  | .ok none => (false, [Collab.txRead])
  | .ok (some tx) =>
    if txFromThrows tx r.wallet then (false, [Collab.txRead])
    else
      match w.receiptLookup with
      | .error _ => (false, [Collab.txRead, Collab.receiptRead])
      | .ok none => (false, [Collab.txRead, Collab.receiptRead])
      | .ok (some rc) =>
        if statusGuardBlocks rc.status then
          (false, [Collab.txRead, Collab.receiptRead])
        else if scanLogs (contractLower cfg) (jsToLower r.wallet)
            (jsToString r.tokenId) rc.logs then
          (true, [Collab.txRead, Collab.receiptRead])
        else
          (ownerFallback w r.wallet,
            [Collab.txRead, Collab.receiptRead, Collab.ownerRead])

/-- The `POST /verifyOwnership` handler: validation, replay check, the three
evidence checks, the verdict, and the replay-set update on success. Returns
(response, new replay set, collaborators invoked in order). -/
def verifyOwnership (cfg : Config) (w : World) (used : List JsVal) (r : Req) :
    Resp × List JsVal × List Collab :=
  if missingFields r then
    (Resp.badRequest "Missing wallet, tokenId or txHash", used, [])
  else if used.contains r.txHash then
    (Resp.badRequest "Transaction already used", used, [])
  else
    if x402CheckPayment w || ownsNFTOf w || (transferCheck cfg w r).fst then
      (Resp.ok r.wallet r.tokenId, r.txHash :: used,
        Collab.facilitator :: Collab.balanceRead :: (transferCheck cfg w r).snd)
    else
      (Resp.paymentRequired (x402CheckPayment w) (ownsNFTOf w)
          (transferCheck cfg w r).fst,
        used,
        Collab.facilitator :: Collab.balanceRead :: (transferCheck cfg w r).snd)

end Genge

namespace Genge

/-! ### Branch lemmas for the handler -/

theorem verify_missing (cfg : Config) (w : World) (used : List JsVal) (r : Req)
    (h : missingFields r = true) :
    verifyOwnership cfg w used r =
      (Resp.badRequest "Missing wallet, tokenId or txHash", used, []) := by
  simp [verifyOwnership, h]

theorem verify_replay (cfg : Config) (w : World) (used : List JsVal) (r : Req)
    (hv : missingFields r = false) (hu : used.contains r.txHash = true) :
    verifyOwnership cfg w used r =
      (Resp.badRequest "Transaction already used", used, []) := by
  unfold verifyOwnership
  rw [if_neg (by simp [hv]), if_pos hu]

theorem verify_ok (cfg : Config) (w : World) (used : List JsVal) (r : Req)
    (hv : missingFields r = false) (hu : used.contains r.txHash = false)
    (hver : (x402CheckPayment w || ownsNFTOf w || (transferCheck cfg w r).fst) = true) :
    verifyOwnership cfg w used r =
      (Resp.ok r.wallet r.tokenId, r.txHash :: used,
        Collab.facilitator :: Collab.balanceRead :: (transferCheck cfg w r).snd) := by
  unfold verifyOwnership
  rw [if_neg (by simp [hv]), if_neg (by simpa using hu), if_pos hver]

theorem verify_402 (cfg : Config) (w : World) (used : List JsVal) (r : Req)
    (hv : missingFields r = false) (hu : used.contains r.txHash = false)
    (hver : (x402CheckPayment w || ownsNFTOf w || (transferCheck cfg w r).fst) = false) :
    verifyOwnership cfg w used r =
      (Resp.paymentRequired (x402CheckPayment w) (ownsNFTOf w) (transferCheck cfg w r).fst,
        used,
        Collab.facilitator :: Collab.balanceRead :: (transferCheck cfg w r).snd) := by
  unfold verifyOwnership
  rw [if_neg (by simp [hv]), if_neg (by simpa using hu), if_neg (by simp [hver])]

end Genge

namespace Genge

theorem verify_cases (cfg : Config) (w : World) (used : List JsVal) (r : Req) :
    (missingFields r = true ∧
      verifyOwnership cfg w used r =
        (Resp.badRequest "Missing wallet, tokenId or txHash", used, [])) ∨
    (missingFields r = false ∧ used.contains r.txHash = true ∧
      verifyOwnership cfg w used r =
        (Resp.badRequest "Transaction already used", used, [])) ∨
    (missingFields r = false ∧ used.contains r.txHash = false ∧
      (x402CheckPayment w || ownsNFTOf w || (transferCheck cfg w r).fst) = true ∧
      verifyOwnership cfg w used r =
        (Resp.ok r.wallet r.tokenId, r.txHash :: used,
          Collab.facilitator :: Collab.balanceRead :: (transferCheck cfg w r).snd)) ∨
    (missingFields r = false ∧ used.contains r.txHash = false ∧
      (x402CheckPayment w || ownsNFTOf w || (transferCheck cfg w r).fst) = false ∧
      verifyOwnership cfg w used r =
        (Resp.paymentRequired (x402CheckPayment w) (ownsNFTOf w)
            (transferCheck cfg w r).fst,
          used,
          Collab.facilitator :: Collab.balanceRead :: (transferCheck cfg w r).snd)) := by
  rcases Bool.eq_false_or_eq_true (missingFields r) with h1 | h1
  · exact Or.inl ⟨h1, verify_missing cfg w used r h1⟩
  · rcases Bool.eq_false_or_eq_true (used.contains r.txHash) with h2 | h2
    · exact Or.inr (Or.inl ⟨h1, h2, verify_replay cfg w used r h1 h2⟩)
    · rcases Bool.eq_false_or_eq_true
        (x402CheckPayment w || ownsNFTOf w || (transferCheck cfg w r).fst) with h3 | h3
      · exact Or.inr (Or.inr (Or.inl ⟨h1, h2, h3, verify_ok cfg w used r h1 h2 h3⟩))
      · exact Or.inr (Or.inr (Or.inr ⟨h1, h2, h3, verify_402 cfg w used r h1 h2 h3⟩))

/-- A sample configuration for concrete evaluations. -/
def cfg0 : Config := ⟨some "0xC0NTRACT", some "0xPAYTO"⟩

/-- A sample request body. -/
def r0 : Req := ⟨JsVal.str "0xA", JsVal.num 42, JsVal.str "0xT1"⟩

/-- A world where the facilitator reports success and every chain call throws. -/
def w0 : World :=
  ⟨Except.ok (JsVal.bool true), Except.error (), Except.error (),
    Except.error (), Except.error ()⟩

/-- C1: for a request that passes field validation and whose transactionId is
not yet consumed, the response is 200 iff at least one of paymentOk,
ownsNFT, transferVerified holds; in particular a facilitator response with
`success === true` forces 200 regardless of balance and transfer evidence. -/
theorem C1_response_200_iff_verified (cfg : Config) (w : World)
    (used : List JsVal) (r : Req)
    (hv : missingFields r = false) (hu : used.contains r.txHash = false) :
    (statusOf (verifyOwnership cfg w used r).fst = 200 ↔
      (x402CheckPayment w || ownsNFTOf w || (transferCheck cfg w r).fst) = true) ∧
    (w.facilitator = Except.ok (JsVal.bool true) →
      statusOf (verifyOwnership cfg w used r).fst = 200) := by
  have hiff : statusOf (verifyOwnership cfg w used r).fst = 200 ↔
      (x402CheckPayment w || ownsNFTOf w || (transferCheck cfg w r).fst) = true := by
    cases h3 : (x402CheckPayment w || ownsNFTOf w || (transferCheck cfg w r).fst)
    · rw [verify_402 cfg w used r hv hu h3]
      simp [statusOf]
    · rw [verify_ok cfg w used r hv hu h3]
      simp [statusOf]
  refine ⟨hiff, fun hf => ?_⟩
  have hp : x402CheckPayment w = true := by simp [x402CheckPayment, hf]
  exact hiff.mpr (by simp [hp])

/-- Witness for C1: facilitator success alone yields 200 while every chain
call throws. -/
theorem C1_response_200_iff_verified_witness :
    statusOf (verifyOwnership cfg0 w0 [] r0).fst = 200 :=
  (C1_response_200_iff_verified cfg0 w0 [] r0 (by decide) (by decide)).2 rfl

/-- C2: an already-consumed transactionId always yields 400, whatever the
evidence in the world; and a request answered 200 yields 400 when replayed
against the resulting state, for any later world and configuration. -/
theorem C2_replay_always_400 (cfg cfg2 : Config) (w w2 : World)
    (used : List JsVal) (r : Req) (hv : missingFields r = false) :
    (used.contains r.txHash = true →
      statusOf (verifyOwnership cfg w used r).fst = 400) ∧
    (statusOf (verifyOwnership cfg w used r).fst = 200 →
      statusOf (verifyOwnership cfg2 w2 (verifyOwnership cfg w used r).snd.fst r).fst
        = 400) := by
  constructor
  · intro hu
    rw [verify_replay cfg w used r hv hu]
    rfl
  · intro h200
    rcases verify_cases cfg w used r with
      ⟨h1, he⟩ | ⟨h1, h2, he⟩ | ⟨h1, h2, h3, he⟩ | ⟨h1, h2, h3, he⟩
    · rw [he] at h200; simp [statusOf] at h200
    · rw [he] at h200; simp [statusOf] at h200
    · rw [he]
      show statusOf (verifyOwnership cfg2 w2 (r.txHash :: used) r).fst = 400
      have hc : (r.txHash :: used).contains r.txHash = true := by simp
      rw [verify_replay cfg2 w2 (r.txHash :: used) r hv hc]
      rfl
    · rw [he] at h200; simp [statusOf] at h200

/-- Witness for C2: the sample request succeeds once, then replays to 400. -/
theorem C2_replay_always_400_witness :
    statusOf (verifyOwnership cfg0 w0 (verifyOwnership cfg0 w0 [] r0).snd.fst r0).fst
      = 400 :=
  (C2_replay_always_400 cfg0 cfg0 w0 w0 [] r0 (by decide)).2 (by decide)

/-- C3: a request answered 400 or 402 leaves the replay set unchanged, and a
request answered 200 adds exactly its transactionId, exactly once (it was not
yet in the set). -/
theorem C3_replay_set_mutation (cfg : Config) (w : World)
    (used : List JsVal) (r : Req) :
    ((statusOf (verifyOwnership cfg w used r).fst = 400 ∨
      statusOf (verifyOwnership cfg w used r).fst = 402) →
      (verifyOwnership cfg w used r).snd.fst = used) ∧
    (statusOf (verifyOwnership cfg w used r).fst = 200 →
      used.contains r.txHash = false ∧
      (verifyOwnership cfg w used r).snd.fst = r.txHash :: used) := by
  rcases verify_cases cfg w used r with
    ⟨h1, he⟩ | ⟨h1, h2, he⟩ | ⟨h1, h2, h3, he⟩ | ⟨h1, h2, h3, he⟩ <;> rw [he]
  · exact ⟨fun _ => rfl, fun h200 => absurd h200 (by simp [statusOf])⟩
  · exact ⟨fun _ => rfl, fun h200 => absurd h200 (by simp [statusOf])⟩
  · refine ⟨fun habs => ?_, fun _ => ⟨h2, rfl⟩⟩
    rcases habs with habs | habs <;> exact absurd habs (by simp [statusOf])
  · exact ⟨fun _ => rfl, fun h200 => absurd h200 (by simp [statusOf])⟩

/-- Witness for C3: the sample success adds its transactionId to the set. -/
theorem C3_replay_set_mutation_witness :
    ([] : List JsVal).contains r0.txHash = false ∧
    (verifyOwnership cfg0 w0 [] r0).snd.fst = r0.txHash :: [] :=
  (C3_replay_set_mutation cfg0 w0 [] r0).2 (by decide)

/-- C4: a request missing wallet, tokenId or txHash (the field is undefined)
is answered 400, no collaborator is invoked, and the replay set is unchanged. -/
theorem C4_missing_field_no_collaborator (cfg : Config) (w : World)
    (used : List JsVal) (r : Req)
    (h : r.wallet = JsVal.undef ∨ r.tokenId = JsVal.undef ∨ r.txHash = JsVal.undef) :
    statusOf (verifyOwnership cfg w used r).fst = 400 ∧
    (verifyOwnership cfg w used r).snd.snd = [] ∧
    (verifyOwnership cfg w used r).snd.fst = used := by
  have hm : missingFields r = true := by
    rcases h with h | h | h <;> simp [missingFields, h, truthy]
  rw [verify_missing cfg w used r hm]
  exact ⟨rfl, rfl, rfl⟩

/-- Witness for C4 at a request with an undefined tokenId. -/
theorem C4_missing_field_no_collaborator_witness :
    statusOf (verifyOwnership cfg0 w0 [] ⟨JsVal.str "0xA", JsVal.undef, JsVal.str "0xT1"⟩).fst = 400 ∧
    (verifyOwnership cfg0 w0 [] ⟨JsVal.str "0xA", JsVal.undef, JsVal.str "0xT1"⟩).snd.snd = [] ∧
    (verifyOwnership cfg0 w0 [] ⟨JsVal.str "0xA", JsVal.undef, JsVal.str "0xT1"⟩).snd.fst = [] :=
  C4_missing_field_no_collaborator cfg0 w0 []
    ⟨JsVal.str "0xA", JsVal.undef, JsVal.str "0xT1"⟩ (Or.inr (Or.inl rfl))

end Genge

namespace Genge

/-! ### Branch lemmas for the transfer check -/

theorem transferCheck_noTx (cfg : Config) (w : World) (r : Req)
    (h : w.txLookup = Except.error () ∨ w.txLookup = Except.ok none) :
    transferCheck cfg w r = (false, [Collab.txRead]) := by
  rcases h with h | h <;> simp [transferCheck, h]

theorem transferCheck_noReceipt (cfg : Config) (w : World) (r : Req) (tx : Tx)
    (htx : w.txLookup = Except.ok (some tx))
    (hft : txFromThrows tx r.wallet = false)
    (h : w.receiptLookup = Except.error () ∨ w.receiptLookup = Except.ok none) :
    transferCheck cfg w r = (false, [Collab.txRead, Collab.receiptRead]) := by
  rcases h with h | h <;> simp [transferCheck, htx, hft, h]

theorem transferCheck_statusBlocked (cfg : Config) (w : World) (r : Req)
    (tx : Tx) (rc : Receipt)
    (htx : w.txLookup = Except.ok (some tx))
    (hft : txFromThrows tx r.wallet = false)
    (hrc : w.receiptLookup = Except.ok (some rc))
    (hst : statusGuardBlocks rc.status = true) :
    transferCheck cfg w r = (false, [Collab.txRead, Collab.receiptRead]) := by
  simp [transferCheck, htx, hft, hrc, hst]

theorem transferCheck_scanHit (cfg : Config) (w : World) (r : Req)
    (tx : Tx) (rc : Receipt)
    (htx : w.txLookup = Except.ok (some tx))
    (hft : txFromThrows tx r.wallet = false)
    (hrc : w.receiptLookup = Except.ok (some rc))
    (hst : statusGuardBlocks rc.status = false)
    (hscan : scanLogs (contractLower cfg) (jsToLower r.wallet)
        (jsToString r.tokenId) rc.logs = true) :
    transferCheck cfg w r = (true, [Collab.txRead, Collab.receiptRead]) := by
  simp [transferCheck, htx, hft, hrc, hst, hscan]

theorem transferCheck_scanMiss (cfg : Config) (w : World) (r : Req)
    (tx : Tx) (rc : Receipt)
    (htx : w.txLookup = Except.ok (some tx))
    (hft : txFromThrows tx r.wallet = false)
    (hrc : w.receiptLookup = Except.ok (some rc))
    (hst : statusGuardBlocks rc.status = false)
    (hscan : scanLogs (contractLower cfg) (jsToLower r.wallet)
        (jsToString r.tokenId) rc.logs = false) :
    transferCheck cfg w r =
      (ownerFallback w r.wallet,
        [Collab.txRead, Collab.receiptRead, Collab.ownerRead]) := by
  simp [transferCheck, htx, hft, hrc, hst, hscan]

end Genge

namespace Genge

/-! ### C5 -/

/-- A receipt with status 0 (a failed transaction) whose only log is a
matching ERC-721 Transfer of tokenId 42 to "0xa" from the configured
contract — the event shape the code decodes with the correct indices. -/
def rc5 : Receipt :=
  ⟨JsVal.num 0,
    [⟨some "0xc0ntract", LogEvent.transfer "0xf" "0xa" 42⟩]⟩

/-- A world for the C5 counterexample: facilitator and balance fail, the
transaction and the status-0 receipt are found. -/
def w5 : World :=
  ⟨Except.error (), Except.error (), Except.ok (some ⟨some "0xa", none⟩),
    Except.ok (some rc5), Except.error ()⟩

/-- C5 counterexample: the receipt is found with the non-success status 0,
yet the transfer-log check still scans the logs, sets transferVerified =
true, and the response is 200 — refuting the claim that a non-success
receipt status always short-circuits the check to false. -/
theorem C5_status_zero_scans_anyway :
    rc5.status = JsVal.num 0 ∧
    w5.receiptLookup = Except.ok (some rc5) ∧
    (transferCheck cfg0 w5 r0).fst = true ∧
    statusOf (verifyOwnership cfg0 w5 [] r0).fst = 200 := by
  refine ⟨rfl, rfl, ?_, ?_⟩ <;> decide

/-- C5 (amended): a transaction lookup that returns nothing or throws, a
receipt lookup that returns nothing or throws, or a receipt status that is
truthy and different from 1 makes transferVerified false; and no error ever
reaches the caller (the response status is never 500). A falsy status such
as 0 does not short-circuit the check. -/
theorem C5_amended_short_circuit (cfg : Config) (w : World) (r : Req) :
    ((w.txLookup = Except.error () ∨ w.txLookup = Except.ok none) →
      (transferCheck cfg w r).fst = false) ∧
    ((w.receiptLookup = Except.error () ∨ w.receiptLookup = Except.ok none) →
      (transferCheck cfg w r).fst = false) ∧
    (∀ rc, w.receiptLookup = Except.ok (some rc) →
      statusGuardBlocks rc.status = true →
      (transferCheck cfg w r).fst = false) ∧
    (∀ used, statusOf (verifyOwnership cfg w used r).fst ≠ 500) := by
  refine ⟨fun h => by rw [transferCheck_noTx cfg w r h], ?_, ?_, ?_⟩
  · intro h
    cases htx : w.txLookup with
    | error e => cases e; rw [transferCheck_noTx cfg w r (Or.inl htx)]
    | ok o =>
      cases o with
      | none => rw [transferCheck_noTx cfg w r (Or.inr htx)]
      | some tx =>
        cases hft : txFromThrows tx r.wallet with
        | true => simp [transferCheck, htx, hft]
        | false => rw [transferCheck_noReceipt cfg w r tx htx hft h]
  · intro rc hrc hst
    cases htx : w.txLookup with
    | error e => cases e; rw [transferCheck_noTx cfg w r (Or.inl htx)]
    | ok o =>
      cases o with
      | none => rw [transferCheck_noTx cfg w r (Or.inr htx)]
      | some tx =>
        cases hft : txFromThrows tx r.wallet with
        | true => simp [transferCheck, htx, hft]
        | false => rw [transferCheck_statusBlocked cfg w r tx rc htx hft hrc hst]
  · intro used
    rcases verify_cases cfg w used r with
      ⟨_, he⟩ | ⟨_, _, he⟩ | ⟨_, _, _, he⟩ | ⟨_, _, _, he⟩ <;>
      rw [he] <;> simp [statusOf]

/-- Witness for the amended C5: with the transaction lookup throwing, the
transfer check reports not verified. -/
theorem C5_amended_short_circuit_witness :
    (transferCheck cfg0 w0 r0).fst = false :=
  (C5_amended_short_circuit cfg0 w0 r0).1 (Or.inl rfl)

end Genge

namespace Genge

/-- The request of the C6 and C7 failing inputs (mixed-case wallet). -/
def r6 : Req := ⟨JsVal.str "0xA", JsVal.num 42, JsVal.str "0xT6"⟩

/-- The C6 failing input's log: a perfect TransferSingle of the requested
tokenId 42 to the requested wallet (lower-cased) with nonzero quantity 1,
emitted by the configured contract. -/
def lgBug6 : Log :=
  ⟨some "0xc0ntract", LogEvent.transferSingle "0xop" "0xf" "0xa" 42 1⟩

/-- The C6 failing input's world: the chain lookups succeed with a one-log
successful receipt while facilitator, balance read and ownerOf all fail. -/
def wBug6 : World :=
  ⟨Except.error (), Except.error (), Except.ok (some ⟨some "0xf", none⟩),
    Except.ok (some ⟨JsVal.num 1, [lgBug6]⟩), Except.error ()⟩

/-- C6: the code never verifies a TransferSingle log — the misindexed
`parsed1155.args[3]/[4]/[5]` reads make the branch compare the value
against the tokenId and then throw into the per-log catch — so at the
failing input, whose receipt holds a perfect matching TransferSingle log
and whose other evidence all fails, the handler answers 402 with
transferVerified = false instead of the 200 the claim states. -/
theorem C6_transferSingle_never_verifies :
    (∀ (wLower tStr : Option String) (op src dst : String) (id v : Nat),
      matchEvent wLower tStr (LogEvent.transferSingle op src dst id v) = false) ∧
    (transferCheck cfg0 wBug6 r6).fst = false ∧
    statusOf (verifyOwnership cfg0 wBug6 [] r6).fst = 402 := by
  refine ⟨fun _ _ _ _ _ _ _ => rfl, ?_, ?_⟩ <;> decide

/-- The C7 failing input's log: a TransferBatch whose ids contain the
requested tokenId 42 at index 1 with nonzero quantity 3, to the requested
wallet, emitted by the configured contract. -/
def lgBug7 : Log :=
  ⟨some "0xc0ntract", LogEvent.transferBatch "0xop" "0xf" "0xa" [7, 42] [0, 3]⟩

/-- The C7 failing input's world, analogous to the C6 one. -/
def wBug7 : World :=
  ⟨Except.error (), Except.error (), Except.ok (some ⟨some "0xf", none⟩),
    Except.ok (some ⟨JsVal.num 1, [lgBug7]⟩), Except.error ()⟩

/-- C7: the code never verifies a TransferBatch log — it evaluates
`parsed1155.args[5].map(...)` on undefined, throwing into the per-log catch
on every such log — so at the failing input, whose receipt holds a perfect
matching TransferBatch log and whose other evidence all fails, the handler
answers 402 with transferVerified = false instead of the 200 the claim
states. -/
theorem C7_transferBatch_never_verifies :
    (∀ (wLower tStr : Option String) (op src dst : String) (ids vals : List Nat),
      matchEvent wLower tStr (LogEvent.transferBatch op src dst ids vals) = false) ∧
    (transferCheck cfg0 wBug7 r6).fst = false ∧
    statusOf (verifyOwnership cfg0 wBug7 [] r6).fst = 402 := by
  refine ⟨fun _ _ _ _ _ _ _ => rfl, ?_, ?_⟩ <;> decide

end Genge

namespace Genge

theorem transferCheck_trace_shape (cfg : Config) (w : World) (r : Req) :
    ∃ l, (transferCheck cfg w r).snd = Collab.txRead :: l := by
  unfold transferCheck
  repeat' split
  all_goals exact ⟨_, rfl⟩

/-- C8: when the balanceOf read throws, ownsNFT is false and the failure is
not fatal: the facilitator and the transaction lookup are still invoked, the
response is never 500, and the verdict is then decided by the facilitator
and transfer checks alone. -/
theorem C8_balance_failure_not_fatal (cfg : Config) (w : World)
    (used : List JsVal) (r : Req)
    (hv : missingFields r = false) (hu : used.contains r.txHash = false)
    (hb : w.balance = Except.error ()) :
    ownsNFTOf w = false ∧
    Collab.facilitator ∈ (verifyOwnership cfg w used r).snd.snd ∧
    Collab.txRead ∈ (verifyOwnership cfg w used r).snd.snd ∧
    statusOf (verifyOwnership cfg w used r).fst ≠ 500 ∧
    (statusOf (verifyOwnership cfg w used r).fst = 200 ↔
      (x402CheckPayment w || (transferCheck cfg w r).fst) = true) := by
  have how : ownsNFTOf w = false := by simp [ownsNFTOf, hb]
  obtain ⟨l, hl⟩ := transferCheck_trace_shape cfg w r
  cases h3 : (x402CheckPayment w || ownsNFTOf w || (transferCheck cfg w r).fst) with
  | true =>
    rw [how] at h3
    simp only [Bool.or_false, Bool.false_or] at h3
    rw [verify_ok cfg w used r hv hu (by rw [how]; simpa using h3)]
    refine ⟨how, by simp, ?_, by simp [statusOf], ?_⟩
    · simp [hl]
    · simp [statusOf, h3]
  | false =>
    rw [how] at h3
    simp only [Bool.or_false, Bool.false_or] at h3
    rw [verify_402 cfg w used r hv hu (by rw [how]; simpa using h3)]
    refine ⟨how, by simp, ?_, by simp [statusOf], ?_⟩
    · simp [hl]
    · simp [statusOf, h3]

/-- Witness for C8: with only the facilitator succeeding and the balance
read throwing, the response is 200. -/
theorem C8_balance_failure_not_fatal_witness :
    statusOf (verifyOwnership cfg0 w0 [] r0).fst = 200 :=
  ((C8_balance_failure_not_fatal cfg0 w0 [] r0 (by decide) (by decide)
    rfl).2.2.2.2).mpr (by decide)

/-- C9: the field validation rejects only a falsy wallet, an undefined
tokenId, or a falsy txHash; so with non-empty string wallet and txHash, a
tokenId of 0, null or the empty string passes validation and the
collaborators are invoked — although the data-model invariant asks for all
three fields present and non-empty. -/
theorem C9_validation_is_truthiness (cfg : Config) (w : World)
    (used : List JsVal) (wallet txHash : String) (tokenId : JsVal)
    (hw : wallet ≠ "") (hx : txHash ≠ "")
    (htok : tokenId = JsVal.num 0 ∨ tokenId = JsVal.null ∨
      tokenId = JsVal.str "")
    (hu : used.contains (JsVal.str txHash) = false) :
    missingFields ⟨JsVal.str wallet, tokenId, JsVal.str txHash⟩ = false ∧
    Collab.facilitator ∈
      (verifyOwnership cfg w used
        ⟨JsVal.str wallet, tokenId, JsVal.str txHash⟩).snd.snd ∧
    Collab.balanceRead ∈
      (verifyOwnership cfg w used
        ⟨JsVal.str wallet, tokenId, JsVal.str txHash⟩).snd.snd := by
  have hmf : missingFields (⟨JsVal.str wallet, tokenId, JsVal.str txHash⟩ : Req)
      = false := by
    rcases htok with h | h | h <;> subst h <;>
      simp [missingFields, truthy, hw, hx]
  refine ⟨hmf, ?_⟩
  cases h3 : (x402CheckPayment w || ownsNFTOf w ||
      (transferCheck cfg w ⟨JsVal.str wallet, tokenId, JsVal.str txHash⟩).fst) with
  | true =>
    rw [verify_ok cfg w used ⟨JsVal.str wallet, tokenId, JsVal.str txHash⟩ hmf hu h3]
    simp
  | false =>
    rw [verify_402 cfg w used ⟨JsVal.str wallet, tokenId, JsVal.str txHash⟩ hmf hu h3]
    simp

/-- Witness for C9: tokenId 0 passes validation and the facilitator is
invoked. -/
theorem C9_validation_is_truthiness_witness :
    missingFields ⟨JsVal.str "0xA", JsVal.num 0, JsVal.str "0xT9"⟩ = false ∧
    Collab.facilitator ∈
      (verifyOwnership cfg0 w0 []
        ⟨JsVal.str "0xA", JsVal.num 0, JsVal.str "0xT9"⟩).snd.snd ∧
    Collab.balanceRead ∈
      (verifyOwnership cfg0 w0 []
        ⟨JsVal.str "0xA", JsVal.num 0, JsVal.str "0xT9"⟩).snd.snd :=
  C9_validation_is_truthiness cfg0 w0 [] "0xA" "0xT9" (JsVal.num 0)
    (by decide) (by decide) (Or.inl rfl) (by decide)

/-- C10: the ownerOf fallback is not reached when the transaction lookup or
the receipt lookup returns null: transferVerified is false and ownerOf is
not consulted, even though the owner of record equals the requested wallet
(case-insensitive). -/
theorem C10_owner_fallback_needs_receipt (cfg : Config) (w : World)
    (wallet : String) (tokenId txHash : JsVal) (owner : String)
    (hok : w.ownerLookup = Except.ok owner) (hne : owner ≠ "")
    (hmo : jsLower owner = jsLower wallet)
    (h : w.txLookup = Except.ok none ∨
      (∃ tx, w.txLookup = Except.ok (some tx) ∧
        w.receiptLookup = Except.ok none)) :
    (transferCheck cfg w ⟨JsVal.str wallet, tokenId, txHash⟩).fst = false ∧
    Collab.ownerRead ∉
      (transferCheck cfg w ⟨JsVal.str wallet, tokenId, txHash⟩).snd ∧
    ownerFallback w (JsVal.str wallet) = true := by
  have hofb : ownerFallback w (JsVal.str wallet) = true := by
    simp [ownerFallback, hok, hne, jsToLower, hmo]
  rcases h with h | ⟨tx, htx, hrc⟩
  · rw [transferCheck_noTx cfg w ⟨JsVal.str wallet, tokenId, txHash⟩ (Or.inr h)]
    exact ⟨rfl, by simp, hofb⟩
  · have hft : txFromThrows tx (JsVal.str wallet) = false := by
      cases htf : tx.txFrom <;> simp [txFromThrows, jsToLower, htf]
    rw [transferCheck_noReceipt cfg w ⟨JsVal.str wallet, tokenId, txHash⟩ tx
      htx hft (Or.inr hrc)]
    exact ⟨rfl, by simp, hofb⟩

/-- The C10 witness world: the transaction lookup returns null while the
owner of record is the requested wallet. -/
def w10 : World :=
  ⟨Except.error (), Except.error (), Except.ok none, Except.error (),
    Except.ok "0xa"⟩

/-- Witness for C10: with the transaction absent, the transfer check fails
and never consults ownerOf, although the owner matches. -/
theorem C10_owner_fallback_needs_receipt_witness :
    (transferCheck cfg0 w10 r0).fst = false ∧
    Collab.ownerRead ∉ (transferCheck cfg0 w10 r0).snd ∧
    ownerFallback w10 (JsVal.str "0xA") = true :=
  C10_owner_fallback_needs_receipt cfg0 w10 "0xA" (JsVal.num 42)
    (JsVal.str "0xT1") "0xa" rfl (by decide) (by decide) (Or.inl rfl)

end Genge
